import Mathlib

/-!
Shallow embedding of the marker-network site generator (Rust sources:
src/generator.rs, src/manifest.rs, src/config.rs, src/theme.rs) and proofs
about its cache decision, page ordering, manifest resolution, breadcrumb
threading, path sanitisation and failure behaviour.

Modelling conventions:
* `Uuid` is a string, `Timestamp` (chrono `DateTime<Utc>`) an integer:
  only equality/order of timestamps is observed by the code.
* Filesystem paths are segment lists (`FsPath := List String`); `Path::join`
  of Rust is list append of one segment.
* `BTreeMap` is an association list with insert-or-replace extension;
  only lookups and whole-map iteration are observed.
* Fallible Rust code (`anyhow::Result`) becomes `Except String`; code that
  can also panic (`unwrap`, `BTreeMap` indexing, slice indexing) returns
  `Outcome`, which separates a returned error from a process panic.
* External collaborators are embedded per their observed interface: the
  remarkable-cloud-api `Documents` value is a flat record collection with
  `get`/`children`; a zip archive is its ordered entry list; the template
  engine is pure, so page emission is recorded as `PageRender` values
  instead of file writes.
-/
abbrev Uuid := String

abbrev Timestamp := Int

abbrev FsPath := List String

/-- `env!("CARGO_PKG_VERSION")`: the crate version baked into the binary.
Its concrete value is never inspected, only compared for equality. -/
def CRATE_VERSION : String := "0.1.0"

/-- Result of running a piece of Rust code that may return a value,
return an error (`anyhow::Result`), or panic. -/
inductive Outcome (α : Type) where
  | ok : α → Outcome α
  | err : String → Outcome α
  | panic : String → Outcome α
deriving Repr, DecidableEq

def Outcome.map {α β : Type} (f : α → β) : Outcome α → Outcome β
  | .ok a => .ok (f a)
  | .err e => .err e
  | .panic m => .panic m

/-! ### String helpers mirroring the Rust std functions used by the code -/
/-- Whether the first list is a prefix of the second (decidable, by hand). -/
def hasPfxL : List Char → List Char → Bool
  | [], _ => true
  | _ :: _, [] => false
  | p :: ps, c :: cs => p == c && hasPfxL ps cs

/-- One stripping loop of `str::trim_start_matches`, with a recursion
budget: each successful strip removes at least one character, so a
budget of `s.length` reproduces the Rust loop exactly. -/
def trimStartAux : Nat → List Char → List Char → List Char
  | 0, _, s => s
  | fuel + 1, pat, s =>
    if !pat.isEmpty && hasPfxL pat s then trimStartAux fuel pat (s.drop pat.length)
    else s

/-- `str::trim_start_matches`: repeatedly strip a leading occurrence of
`pat` (a no-op for the empty pattern, as in Rust). -/
def trimStartL (pat : List Char) (s : List Char) : List Char :=
  trimStartAux s.length pat s

/-- `str::trim_end_matches`: repeatedly strip a trailing occurrence. -/
def trimEndL (pat : List Char) (s : List Char) : List Char :=
  (trimStartL pat.reverse s.reverse).reverse

def trimStartMatches (s pat : String) : String :=
  ⟨trimStartL pat.data s.data⟩

def trimEndMatches (s pat : String) : String :=
  ⟨trimEndL pat.data s.data⟩

def digitsToNat (cs : List Char) : Nat :=
  cs.foldl (fun n c => n * 10 + (c.toNat - 48)) 0

/-- Core of Rust integer parsing: a nonempty all-digit string. -/
def parseNatCore (cs : List Char) : Option Nat :=
  if cs ≠ [] ∧ cs.all Char.isDigit then some (digitsToNat cs) else none

/-- `str::parse::<uN>()`: optional leading plus sign, digits, bounds check
(`maxVal` is the largest representable value; overflow is `Err`). -/
def rustParseNat (s : String) (maxVal : Nat) : Option Nat :=
  let cs := match s.data with
    | '+' :: rest => rest
    | cs => cs
  match parseNatCore cs with
  | some n => if n ≤ maxVal then some n else none
  | none => none

/-- Largest `u16` value, the page-number type used when re-listing a
cached output directory. -/
def U16_MAX : Nat := 65535

/-- Largest `usize` value (64-bit), the page-number type used when
rendering from an archive. -/
def USIZE_MAX : Nat := 18446744073709551615

/-- `std::path::Path::file_stem` on a file name: the portion before the
last dot, except that a name with no dot, or only a leading dot, is its
own stem. -/
def fileStem (s : String) : String :=
  let rev := s.data.reverse
  let afterDot := rev.takeWhile (fun c => c ≠ '.')
  if afterDot.length = rev.length then s
  else
    let stemRev := rev.drop (afterDot.length + 1)
    if stemRev.isEmpty then s else ⟨stemRev.reverse⟩

/-- `Path::with_extension` on the last segment of a path: replace the
extension (the part after the stem) with the given one. -/
def withExtension (p : FsPath) (ext : String) : FsPath :=
  match p.getLast? with
  | none => [String.append "." ext]
  | some seg => p.dropLast ++ [String.append (fileStem seg) (String.append "." ext)]

/-! ### `sanitize` (src/generator.rs): names to path segments -/
/-- `pub fn sanitize`: keep ASCII-alphanumeric characters, replace every
other character by the placeholder `-`. (`Char.isAlphanum` coincides with
Rust's `char::is_ascii_alphanumeric`.) -/
def sanitize (name : String) : String :=
  ⟨name.data.map (fun c => if c.isAlphanum then c else '-')⟩

/-! ### Association-list model of `BTreeMap` -/
def alistGet {α : Type} (m : List (Uuid × α)) (k : Uuid) : Option α :=
  (m.find? (fun kv => kv.1 == k)).map (·.2)

/-- `BTreeMap::insert`: replace the binding of `k` if present (keys are
unique in a `BTreeMap`, so replacing the first match is the map insert),
otherwise add one. -/
def alistInsert {α : Type} : List (Uuid × α) → Uuid → α → List (Uuid × α)
  | [], k, v => [(k, v)]
  | kv :: rest, k, v =>
    if kv.1 == k then (k, v) :: rest else kv :: alistInsert rest k v

/-- `BTreeMap::extend`: later pairs override earlier bindings. -/
def alistExtend {α : Type} (m : List (Uuid × α)) (kvs : List (Uuid × α)) :
    List (Uuid × α) :=
  kvs.foldl (fun acc kv => alistInsert acc kv.1 kv.2) m

/-! ### Data model (src/manifest.rs, src/generator.rs, src/config.rs) -/
/-- `DocumentMeta` (src/manifest.rs): immutable per-document snapshot. -/
structure DocumentMeta where
  id : Uuid
  name : String
  modified_client : Timestamp
deriving Repr, DecidableEq

/-- `Posts` (src/manifest.rs): recursive tree of named documents and
named subfolders (`BTreeMap`s, embedded as association lists in key
order). -/
inductive Posts where
  | node : List (String × DocumentMeta) → List (String × Posts) → Posts
deriving Repr

def Posts.documents : Posts → List (String × DocumentMeta)
  | .node ds _ => ds

def Posts.folders : Posts → List (String × Posts)
  | .node _ fs => fs

/-- `Manifest` (src/manifest.rs). -/
structure Manifest where
  home : DocumentMeta
  logo : DocumentMeta
  posts : Posts
deriving Repr

mutual
/-- `Posts::docs`: every document of the subtree keyed by its name path. -/
def Posts.docsList : Posts → List (List String × DocumentMeta)
  | .node ds fs =>
    ds.map (fun nd => ([nd.1], nd.2)) ++ Posts.docsListF fs
def Posts.docsListF : List (String × Posts) → List (List String × DocumentMeta)
  | [] => []
  | (n, p) :: rest =>
    (Posts.docsList p).map (fun pd => (n :: pd.1, pd.2)) ++ Posts.docsListF rest
end

/-- `Manifest::docs`: home, logo, then every posts document. -/
def Manifest.docs (m : Manifest) : List DocumentMeta :=
  m.home :: m.logo :: (m.posts.docsList.map (·.2))

/-- `Config` (src/config.rs). -/
structure Config where
  site_root : String
  title : String
  theme : String
deriving Repr, DecidableEq

/-! ### `RenderCache` (src/generator.rs) -/
structure RenderCache where
  version : String
  cache : List (Uuid × Timestamp)
deriving Repr, DecidableEq

def RenderCache.get (c : RenderCache) (id : Uuid) : Option Timestamp :=
  alistGet c.cache id

/-- `impl Default for RenderCache`: current crate version, empty map. -/
def RenderCache.defaultCache : RenderCache :=
  { version := CRATE_VERSION, cache := [] }

def RenderCache.is_current_version (c : RenderCache) : Bool :=
  c.version == CRATE_VERSION

/-- `RenderCache::load`. The on-disk state of `render_cache.json` is
`none` when the file does not exist, `some none` when it exists but
serde fails to parse it, and `some (some rc)` when it parses to `rc`. -/
def RenderCache.load (file : Option (Option RenderCache)) :
    Except String RenderCache :=
  match file with
  | none => .ok RenderCache.defaultCache
  | some none => .error "Parsing render_cache file"
  | some (some rc) =>
    if rc.is_current_version then .ok rc else .ok RenderCache.defaultCache

/-- One filesystem operation performed by a save routine, in program
order. JSON serialisation itself is abstract; the written value is
carried in the operation. -/
inductive FsOp where
  | create : FsPath → FsOp
  | writeCacheJson : FsPath → RenderCache → FsOp
  | writeConfigJson : FsPath → Config → FsOp
  | rename : FsPath → FsPath → FsOp
deriving Repr, DecidableEq

def FsOp.isRename : FsOp → Bool
  | .rename _ _ => true
  | _ => false

/-- `RenderCache::save`: `File::create` directly on the final cache path
`build_root/render_cache.json`, then serialise into it. -/
def RenderCache.saveOps (c : RenderCache) (build_root : FsPath) : List FsOp :=
  [.create (build_root ++ ["render_cache.json"]),
   .writeCacheJson (build_root ++ ["render_cache.json"]) c]

/-- `Config::save`: serialise into `path.with_extension("json.tmp")`,
then rename the temporary file over the final path. -/
def Config.saveOps (c : Config) (path : FsPath) : List FsOp :=
  [.create (withExtension path "json.tmp"),
   .writeConfigJson (withExtension path "json.tmp") c,
   .rename (withExtension path "json.tmp") path]

/-! ### Renderer (src/generator.rs): `render_notebook_zip`,
`render_doc_meta`, `render_all_svgs` -/
/-- One entry of a document archive, in archive order. Only the entry
name, whether its vector content parses, and (for `.pagedata`) its text
are observed by the generator; image bytes are external. -/
structure ZipEntry where
  name : String
  content : String
  rmParseOk : Bool
deriving Repr, DecidableEq

/-- The filesystem/remote state a render run reads. `dirs id` is the
entry-name listing of `build_root/svg/<id>` (`none`: missing or
unreadable); `zips id` is the archive at `zip_dir/<id>.zip`. -/
structure RenderEnv where
  dirs : Uuid → Option (List String)
  zips : Uuid → Option (List ZipEntry)

def strEndsWith (s suffix : String) : Bool :=
  hasPfxL suffix.data.reverse s.data.reverse

/-- Page number of an `.rm` archive entry: the entry name with the
leading `<id>/` and the trailing `.rm` trimmed, parsed as `usize`. -/
def pageNumberOfEntry (id : Uuid) (entryName : String) : Option Nat :=
  rustParseNat
    (trimEndMatches (trimStartMatches entryName (String.append id "/")) ".rm")
    USIZE_MAX

/-- The `.rm` loop of `render_notebook_zip`, over the remaining entries:
parse the vector content, derive the page number (`?`-propagated
failures), write `svg/<id>/<page>.svg` and push its prefixed,
root-stripped path — in archive order, with no sorting. -/
def renderEntries (urlPrefix : FsPath) (id : Uuid) :
    List ZipEntry → Except String (List FsPath)
  | [] => .ok []
  | e :: rest =>
    if strEndsWith e.name ".rm" then
      if e.rmParseOk then
        match pageNumberOfEntry id e.name with
        | none => .error "invalid digit found in string"
        | some page_number =>
          match renderEntries urlPrefix id rest with
          | .error err => .error err
          | .ok pages =>
            .ok ((urlPrefix ++ ["svg", id, toString page_number ++ ".svg"]) :: pages)
      else .error "Parsing .rm file"
    else renderEntries urlPrefix id rest

/-- `Generator::render_notebook_zip`. The template scan and the image
rendering affect only image bytes (external); what the function returns
is the ordered list of prefixed page paths. `auto_crop` likewise only
changes image bytes. -/
def render_notebook_zip (urlPrefix : FsPath) (env : RenderEnv) (id : Uuid)
    (auto_crop : Bool) : Except String (List FsPath) :=
  match env.zips id with
  | none => .error "Opening zip file"
  | some entries =>
    let _ := auto_crop
    renderEntries urlPrefix id entries

/-- Numeric key of a page path: its file stem parsed as `u16`. -/
def pageKey (p : FsPath) : Option Nat :=
  rustParseNat (fileStem ((p.getLast?).getD "")) U16_MAX

/-- The `sort_by_key` order on page paths: numeric file-stem keys. -/
def pageLe (a b : FsPath) : Prop :=
  (pageKey a).getD 0 ≤ (pageKey b).getD 0

instance : DecidableRel pageLe := fun a b =>
  Nat.decLe ((pageKey a).getD 0) ((pageKey b).getD 0)

instance : IsTotal FsPath pageLe :=
  ⟨fun a b => Nat.le_total ((pageKey a).getD 0) ((pageKey b).getD 0)⟩

instance : IsTrans FsPath pageLe :=
  ⟨fun _ _ _ => Nat.le_trans⟩

/-- Cache-hit path of `render_doc_meta`: list the existing `svg/<id>`
output directory, prefix the root-stripped entry paths, and sort with
`sort_by_key` by the file stem parsed as `u16`. Rust's stable sort
returns immediately on slices with fewer than two elements without ever
invoking the key closure, so such listings come back as read even when
their stem would not parse; on longer slices every element takes part
in at least one comparison, so every key is computed and a stem that
fails to parse is an `unwrap` panic inside the key closure. -/
def reconstructPages (urlPrefix : FsPath) (id : Uuid) (files : List String) :
    Outcome (List FsPath) :=
  let pages := files.map (fun f => urlPrefix ++ ["svg", id, f])
  if pages.length < 2 then .ok pages
  else if pages.all (fun p => (pageKey p).isSome) then
    .ok (List.insertionSort pageLe pages)
  else .panic "called Result unwrap on an Err value: ParseIntError"

/-- `Generator::render_doc_meta`: skip to directory reconstruction when
the cache binds `doc.id` to exactly the current timestamp, otherwise run
the full `render_notebook_zip` path. -/
def render_doc_meta (render_cache : RenderCache) (urlPrefix : FsPath)
    (env : RenderEnv) (doc : DocumentMeta) (crop : Bool) :
    Outcome (Uuid × List FsPath) :=
  let fresh : Outcome (Uuid × List FsPath) :=
    match render_notebook_zip urlPrefix env doc.id crop with
    | .ok pages => .ok (doc.id, pages)
    | .error e => .err e
  match render_cache.get doc.id with
  | some last_modified =>
    if last_modified = doc.modified_client then
      match env.dirs doc.id with
      | none => .err "io error reading notebook svg directory"
      | some files =>
        Outcome.map (fun pages => (doc.id, pages))
          (reconstructPages urlPrefix doc.id files)
    else fresh
  | none => fresh

/-- The parallel fan-out over the posts documents (`par_iter` +
fail-fast `collect::<Result<_>>`), embedded in document order. -/
def renderPostsDocs (render_cache : RenderCache) (urlPrefix : FsPath)
    (env : RenderEnv) :
    List (List String × DocumentMeta) → Outcome (List (Uuid × List FsPath))
  | [] => .ok []
  | (_, doc) :: rest =>
    match render_doc_meta render_cache urlPrefix env doc false with
    | .err e => .err e
    | .panic m => .panic m
    | .ok r =>
      Outcome.map (fun rs => r :: rs)
        (renderPostsDocs render_cache urlPrefix env rest)

/-- `Generator::render_all_svgs`: render home (no crop) and logo (crop),
fan out over the posts documents, then extend the cache with the current
timestamp of every manifest document. Returns the rendered-artifact map
and the updated cache. -/
def render_all_svgs (render_cache : RenderCache) (urlPrefix : FsPath)
    (env : RenderEnv) (manifest : Manifest) :
    Outcome (List (Uuid × List FsPath) × RenderCache) :=
  match render_doc_meta render_cache urlPrefix env manifest.home false with
  | .err e => .err e
  | .panic m => .panic m
  | .ok home_r =>
    match render_doc_meta render_cache urlPrefix env manifest.logo true with
    | .err e => .err e
    | .panic m => .panic m
    | .ok logo_r =>
      match renderPostsDocs render_cache urlPrefix env
          manifest.posts.docsList with
      | .err e => .err e
      | .panic m => .panic m
      | .ok posts_rs =>
        let doc_svgs := alistExtend (alistExtend [] [home_r, logo_r]) posts_rs
        let cache' := { render_cache with
          cache := alistExtend render_cache.cache
            (manifest.docs.map (fun d => (d.id, d.modified_client))) }
        .ok (doc_svgs, cache')

/-! ### Remote collection (external: remarkable-cloud-api) and
`Manifest::build` (src/manifest.rs) -/
/-- A record's parent pointer in the remote collection. -/
inductive Parent where
  | root
  | trash
  | node : Uuid → Parent
deriving Repr, DecidableEq

/-- One record of the flat remote collection: `{id, name, parent, type,
modified_at}`. -/
structure Document where
  id : Uuid
  visible_name : String
  parent : Parent
  doc_type : String
  modified_client : Timestamp
deriving Repr, DecidableEq

abbrev Documents := List Document

/-- `Documents::get`: look a record up by id. -/
def Documents.get (docs : Documents) (id : Uuid) : Option Document :=
  docs.find? (fun d => d.id == id)

/-- `Documents::children`: all records whose parent is `p`. -/
def Documents.children (docs : Documents) (p : Parent) : Documents :=
  docs.filter (fun d => d.parent == p)

def isHexDigit (c : Char) : Bool :=
  c.isDigit || ('a' ≤ c && c ≤ 'f') || ('A' ≤ c && c ≤ 'F')

/-- `Uuid::parse_str` restricted to the canonical hyphenated form the
remarkable cloud emits: 36 characters, hyphens at positions 8, 13, 18
and 23, hex digits elsewhere; the parsed value is the lowercased
string. -/
def parseUuid (s : String) : Option Uuid :=
  let cs := s.data
  if cs.length == 36 && (List.range 36).all (fun i =>
      let c := cs.getD i ' '
      if i == 8 || i == 13 || i == 18 || i == 23 then c == '-'
      else isHexDigit c) then
    some (String.map Char.toLower s)
  else none

def DocumentMeta.ofDocument (d : Document) : DocumentMeta :=
  { id := d.id, name := d.visible_name, modified_client := d.modified_client }

/-- `anyhow` context wrapping: the stage description chained onto the
underlying error. -/
def withCtx (c e : String) : String :=
  String.append c (String.append ": " e)

/-- The `matching_docs` filter of `Manifest::root_doc_by_name`: direct
children of the root that are documents with the given name. -/
def namedDocsUnder (doc_name : String) (root_id : Uuid)
    (docs : Documents) : Documents :=
  (Documents.children docs (Parent.node root_id)).filter
    (fun d => d.visible_name == doc_name && d.doc_type == "DocumentType")

/-- `Manifest::root_doc_by_name`: among the direct children of the root,
exactly one document (by type tag) with the given name must exist.
(Quote punctuation of the source messages is elided.) -/
def Manifest.root_doc_by_name (doc_name : String) (root_id : Uuid)
    (docs : Documents) : Except String DocumentMeta :=
  match namedDocsUnder doc_name root_id docs with
  | [d] => .ok (DocumentMeta.ofDocument d)
  | [] => .error s!"Missing {doc_name} notebook in site root"
  | _ => .error s!"Multiple {doc_name} notebooks in site root"

/-- `Posts::build_posts_hierarchy`, with an explicit recursion budget.
The Rust recursion is bounded by the depth of the (acyclic) parent
relation; any `fuel` past that depth reproduces it exactly. The
`BTreeMap` collections sort siblings by name and collapse duplicate
names; the embedding keeps filter order and all entries, which agrees on
the unique-sibling-name collections the manifest invariant guarantees. -/
def Posts.build_posts_hierarchy (fuel : Nat) (folder : Uuid)
    (all_docs : Documents) : Posts :=
  match fuel with
  | 0 => .node [] []
  | fuel' + 1 =>
    let items := Documents.children all_docs (Parent.node folder)
    let documents := (items.filter (fun d => d.doc_type == "DocumentType")).map
      (fun d => (d.visible_name, DocumentMeta.ofDocument d))
    let folders := (items.filter (fun d => d.doc_type == "CollectionType")).map
      (fun d => (d.visible_name, Posts.build_posts_hierarchy fuel' d.id all_docs))
    .node documents folders

/-- The `matching_docs` filter of `Posts::build`: direct children of
the root that are folders named `Posts`. -/
def postsFoldersUnder (root_id : Uuid) (docs : Documents) : Documents :=
  (Documents.children docs (Parent.node root_id)).filter
    (fun d => d.visible_name == "Posts" && d.doc_type == "CollectionType")

/-- `Posts::build`: exactly one child folder named `Posts` under the
site root, whose subtree is mirrored. -/
def Posts.build (root_id : Uuid) (docs : Documents) : Except String Posts :=
  match postsFoldersUnder root_id docs with
  | [posts_folder] =>
    .ok (Posts.build_posts_hierarchy (docs.length + 1) posts_folder.id docs)
  | [] => .error "Missing Posts folder in site root"
  | _ => .error "Multiple Posts folders in site root"

/-- The `site_roots` filter of `Manifest::build`: root-level folders
carrying the configured site-root name. -/
def rootMatches (root_folder : String) (docs : Documents) : Documents :=
  ((Documents.children docs Parent.root).filter
    (fun d => d.doc_type == "CollectionType")).filter
    (fun d => d.visible_name == root_folder)

/-- The count-reporting error for an ambiguous or missing root folder. -/
def rootCountError (root_folder : String) (n : Nat) : String :=
  s!"Make sure to have one folder named {root_folder} on your remarkable. And make sure you are synced with rM cloud, found {n} folders"

/-- Root resolution of `Manifest::build`: an id is looked up and must be
a folder; a name must match exactly one root-level folder (`Vec::pop` of
the single match). -/
def resolveSiteRoot (root_folder : String) (docs : Documents) :
    Except String Document :=
  match parseUuid root_folder with
  | some id =>
    match Documents.get docs id with
    | none => .error (String.append "No document with ID " id)
    | some root_doc =>
      if root_doc.doc_type ≠ "CollectionType" then
        .error (String.append "Site root must be a folder: " root_doc.doc_type)
      else .ok root_doc
  | none =>
    if h : (rootMatches root_folder docs).length = 1 then
      .ok ((rootMatches root_folder docs).getLast (by
        intro hnil
        rw [hnil] at h
        simp at h))
    else .error (rootCountError root_folder (rootMatches root_folder docs).length)

/-- `Manifest::build`. -/
def Manifest.build (root_folder : String) (docs : Documents) :
    Except String Manifest :=
  match resolveSiteRoot root_folder docs with
  | .error e => .error e
  | .ok site_root =>
    match Manifest.root_doc_by_name "Home" site_root.id docs with
    | .error e => .error (withCtx "Looking for Home notebook" e)
    | .ok home =>
      match Manifest.root_doc_by_name "Logo" site_root.id docs with
      | .error e => .error (withCtx "Looking for Logo notebook" e)
      | .ok logo =>
        match Posts.build site_root.id docs with
        | .error e => .error (withCtx "Looking for Posts folder" e)
        | .ok posts => .ok { home := home, logo := logo, posts := posts }

/-! ### Site assembler (src/generator.rs): `Generator` and `gen_*` -/
/-- `Generator` state after `prepare`. The source field `prefix` (the
configurable URL prefix) is embedded as `urlPrefix`; the theme is the
external pure template engine and carries no state the claims observe. -/
structure Generator where
  root : FsPath
  urlPrefix : FsPath
  config : Config
  manifest : Manifest
  svgs : List (Uuid × List FsPath)
  build_nonce : String
  render_cache : RenderCache

def Generator.title (g : Generator) : String :=
  g.config.title

/-- `Generator::doc_pages`: `&self.svgs[&id]` — `BTreeMap` indexing,
which panics with the fixed standard-library message when the id is
absent from the rendered-artifact map. -/
def Generator.doc_pages (g : Generator) (id : Uuid) : Outcome (List FsPath) :=
  match alistGet g.svgs id with
  | some pages => .ok pages
  | none => .panic "no entry found for key"

/-- `Generator::doc_first_page`: `&self.doc_pages(id)[0]` — slice
indexing, which panics out of bounds when the page list is empty. -/
def Generator.doc_first_page (g : Generator) (id : Uuid) : Outcome FsPath :=
  match g.doc_pages id with
  | .ok [] => .panic "index out of bounds: the len is 0 but the index is 0"
  | .ok (p :: _) => .ok p
  | .err e => .err e
  | .panic m => .panic m

/-- `Generator::logo_svg`: first page of the logo document. -/
def Generator.logo_svg (g : Generator) : Outcome FsPath :=
  g.doc_first_page g.manifest.logo.id

/-- Segment-wise path prefix test. -/
def hasPfxSeg : FsPath → FsPath → Bool
  | [], _ => true
  | _ :: _, [] => false
  | p :: ps, c :: cs => p == c && hasPfxSeg ps cs

/-- `Path::strip_prefix`, an error when `root` is not a prefix. -/
def stripRoot (root p : FsPath) : Except String FsPath :=
  if hasPfxSeg root p then .ok (p.drop root.length)
  else .error "Stripping root from path"

/-- `Generator::relative_to_root`: URL prefix plus the root-stripped
physical path. -/
def Generator.relative_to_root (g : Generator) (p : FsPath) :
    Except String FsPath :=
  (stripRoot g.root p).map (fun rest => g.urlPrefix ++ rest)

/-- The parameter object handed to the external template engine for one
emitted page, plus where the page file (and, for a folder, its child
directory) lands. `Outcome`-typed fields record values whose computation
in the source can panic (absent-id lookup, empty first page) at the
point the parameter object is built; `pages` is `none` for folder pages,
whose template takes no page list. -/
structure PageRender where
  kind : String
  name : String
  breadcrumbs : List (String × FsPath)
  back_link : Option FsPath
  logo : Outcome FsPath
  pages : Option (Outcome (List FsPath))
  docListing : List (String × Outcome FsPath × FsPath)
  folderListing : List (String × FsPath)
  path : FsPath
  dir : Option FsPath
deriving Repr

/-- `Generator::gen_doc`: one document page under `parent`, named by the
sanitized document name; breadcrumbs are rendered as passed and the back
link is the last crumb of the trail. -/
def Generator.gen_doc (g : Generator) (breadcrumbs : List (String × FsPath))
    (parent : FsPath) (name : String) (id : Uuid) :
    Except String (FsPath × PageRender) :=
  let sanitized_name := sanitize name
  let doc_path := parent ++ [String.append sanitized_name ".html"]
  let r : PageRender := {
    kind := "document"
    name := name
    breadcrumbs := breadcrumbs
    back_link := (breadcrumbs.getLast?).map (·.2)
    logo := g.logo_svg
    pages := some (g.doc_pages id)
    docListing := []
    folderListing := []
    path := doc_path
    dir := none }
  (g.relative_to_root doc_path).map (fun link => (link, r))

/-- The document loop shared by `gen_index` and `gen_folder`: generate
each document page, collecting `(name, id, link)` listings fail-fast. -/
def Generator.genDocs (g : Generator) (bc : List (String × FsPath))
    (parent : FsPath) :
    List (String × DocumentMeta) →
    Except String (List (String × Uuid × FsPath) × List PageRender)
  | [] => .ok ([], [])
  | (_, doc) :: rest =>
    match g.gen_doc bc parent doc.name doc.id with
    | .error e => .error e
    | .ok (link, r) =>
      match g.genDocs bc parent rest with
      | .error e => .error e
      | .ok (out, recs) => .ok ((doc.name, doc.id, link) :: out, r :: recs)

mutual
/-- `Generator::gen_folder`: emits the child directory `parent/<san>`,
the folder page `parent/<san>.html` (same sanitized stem), generates
children under the trail extended with this folder's crumb, then renders
the folder's own page with the incoming trail. -/
def Generator.gen_folder (g : Generator) (breadcrumbs : List (String × FsPath))
    (parent : FsPath) (folder : String) (posts : Posts) :
    Except String (FsPath × List PageRender) :=
  match posts with
  | .node documents folders =>
    let sanitized_folder := sanitize folder
    let folder_path := parent ++ [sanitized_folder]
    let folder_html_path := parent ++ [String.append sanitized_folder ".html"]
    match g.relative_to_root folder_html_path with
    | .error e => .error e
    | .ok folder_link =>
      let breadcrumbs_for_children := breadcrumbs ++ [(folder, folder_link)]
      match g.genDocs breadcrumbs_for_children folder_path documents with
      | .error e => .error e
      | .ok (docs, docRecs) =>
        match g.genSubfolders breadcrumbs_for_children folder_path folders with
        | .error e => .error e
        | .ok (sub_folders, subRecs) =>
          let r : PageRender := {
            kind := "folder"
            name := folder
            breadcrumbs := breadcrumbs
            back_link := (breadcrumbs.getLast?).map (·.2)
            logo := g.logo_svg
            pages := none
            docListing := docs.map (fun d => (d.1, g.doc_first_page d.2.1, d.2.2))
            folderListing := sub_folders
            path := folder_html_path
            dir := some folder_path }
          .ok (folder_link, docRecs ++ subRecs ++ [r])

/-- The subfolder loop of `gen_index`/`gen_folder`, fail-fast. -/
def Generator.genSubfolders (g : Generator) (bc : List (String × FsPath))
    (parent : FsPath) :
    List (String × Posts) →
    Except String (List (String × FsPath) × List PageRender)
  | [] => .ok ([], [])
  | (n, p) :: rest =>
    match g.gen_folder bc parent n p with
    | .error e => .error e
    | .ok (link, recs) =>
      match g.genSubfolders bc parent rest with
      | .error e => .error e
      | .ok (links, recs') => .ok ((n, link) :: links, recs ++ recs')
end

/-- `Generator::gen_index`: the top-level walk. Children are generated
under the synthetic root trail `[("Home", urlPrefix)]`; the index page
itself is rendered last and the render cache is saved (its filesystem
operations are returned alongside the emitted pages). -/
def Generator.gen_index (g : Generator) :
    Except String (List PageRender × List FsOp) :=
  let posts_path := g.root ++ ["posts"]
  let breadcrumbs := [("Home", g.urlPrefix)]
  match g.genDocs breadcrumbs posts_path g.manifest.posts.documents with
  | .error e => .error e
  | .ok (docs, docRecs) =>
    match g.genSubfolders breadcrumbs posts_path g.manifest.posts.folders with
    | .error e => .error e
    | .ok (sub_folders, subRecs) =>
      let r : PageRender := {
        kind := "index"
        name := "Home"
        breadcrumbs := []
        back_link := none
        logo := g.logo_svg
        pages := some (g.doc_pages g.manifest.home.id)
        docListing := docs.map (fun d => (d.1, g.doc_first_page d.2.1, d.2.2))
        folderListing := sub_folders
        path := g.root ++ ["index.html"]
        dir := some posts_path }
      .ok (docRecs ++ subRecs ++ [r],
        RenderCache.saveOps g.render_cache g.root)

/-! ### Concrete fixtures used by witnesses and counterexamples -/
def uuidA : Uuid := "aaaaaaaa-aaaa-aaaa-aaaa-aaaaaaaaaaaa"

def uuidB : Uuid := "bbbbbbbb-bbbb-bbbb-bbbb-bbbbbbbbbbbb"

def uuidC : Uuid := "cccccccc-cccc-cccc-cccc-cccccccccccc"

def uuidD : Uuid := "dddddddd-dddd-dddd-dddd-dddddddddddd"

def exHome : DocumentMeta := { id := uuidA, name := "Home", modified_client := 10 }

def exLogo : DocumentMeta := { id := uuidB, name := "Logo", modified_client := 20 }

def exSoup : DocumentMeta := { id := uuidC, name := "Soup", modified_client := 30 }

def exConfig : Config := { site_root := "Site", title := "T", theme := "default" }

/-- A generator over `build/` with URL prefix `p/`, parameterised by its
rendered-artifact map and posts tree. -/
def exGen (svgs : List (Uuid × List FsPath)) (posts : Posts) : Generator :=
  { root := ["build"]
    urlPrefix := ["p"]
    config := exConfig
    manifest := { home := exHome, logo := exLogo, posts := posts }
    svgs := svgs
    build_nonce := "n"
    render_cache := RenderCache.defaultCache }

/-- An environment with no readable state at all. -/
def envEmpty : RenderEnv :=
  { dirs := fun _ => none, zips := fun _ => none }

/-- Substring test, used to state whether an error message carries an
identifier. -/
def containsStr (s sub : String) : Bool :=
  (List.range (s.data.length + 1)).any
    (fun i => hasPfxL sub.data (s.data.drop i))

def cacheAB : RenderCache :=
  { version := CRATE_VERSION, cache := [(uuidA, 10), (uuidB, 20)] }

def envHit : RenderEnv :=
  { dirs := fun id => if id == uuidA || id == uuidB then some ["0.svg"] else none
    zips := fun _ => none }

def manifest0 : Manifest :=
  { home := exHome, logo := exLogo, posts := .node [] [] }

/-- A page-content archive entry named `<id>/<n>.rm`, parseable. -/
def rmEntry (id : Uuid) (n : Nat) : ZipEntry :=
  { name := String.append id (String.append "/" (String.append (toString n) ".rm"))
    content := ""
    rmParseOk := true }

/-- An environment whose only readable state is the archive of `uuidC`,
holding page entries in the order 1, 10, 2. -/
def envOrder : RenderEnv :=
  { dirs := fun _ => none
    zips := fun id =>
      if id == uuidC then some [rmEntry uuidC 1, rmEntry uuidC 10, rmEntry uuidC 2]
      else none }

def envBadStem : RenderEnv :=
  { dirs := fun id => if id == uuidC then some ["0.svg", "x.svg"] else none
    zips := fun _ => none }

def envLoneStem : RenderEnv :=
  { dirs := fun id => if id == uuidC then some ["x.svg"] else none
    zips := fun _ => none }

def cacheC : RenderCache := { version := CRATE_VERSION, cache := [(uuidC, 30)] }

def rootDoc : Document :=
  { id := uuidD, visible_name := "Site", parent := .root
    doc_type := "CollectionType", modified_client := 0 }

def homeDoc : Document :=
  { id := uuidA, visible_name := "Home", parent := .node uuidD
    doc_type := "DocumentType", modified_client := 10 }

def logoDoc : Document :=
  { id := uuidB, visible_name := "Logo", parent := .node uuidD
    doc_type := "DocumentType", modified_client := 20 }

def postsDoc : Document :=
  { id := uuidC, visible_name := "Posts", parent := .node uuidD
    doc_type := "CollectionType", modified_client := 0 }

def exDocs : Documents := [rootDoc, homeDoc, logoDoc, postsDoc]

def pb2 : Posts := .node [("Soup", exSoup)] []

def pa2 : Posts := .node [] [("B", pb2)]

def posts2 : Posts := .node [] [("A", pa2)]

def exRecs2 : List PageRender :=
  [{ kind := "document"
     name := "Soup"
     breadcrumbs := [("Home", ["p"]), ("A", ["p", "posts", "A.html"]),
       ("B", ["p", "posts", "A", "B.html"])]
     back_link := some ["p", "posts", "A", "B.html"]
     logo := Outcome.panic "no entry found for key"
     pages := some (Outcome.panic "no entry found for key")
     docListing := []
     folderListing := []
     path := ["build", "posts", "A", "B", "Soup.html"]
     dir := none },
   { kind := "folder"
     name := "B"
     breadcrumbs := [("Home", ["p"]), ("A", ["p", "posts", "A.html"])]
     back_link := some ["p", "posts", "A.html"]
     logo := Outcome.panic "no entry found for key"
     pages := none
     docListing := [("Soup", Outcome.panic "no entry found for key",
       ["p", "posts", "A", "B", "Soup.html"])]
     folderListing := []
     path := ["build", "posts", "A", "B.html"]
     dir := some ["build", "posts", "A", "B"] },
   { kind := "folder"
     name := "A"
     breadcrumbs := [("Home", ["p"])]
     back_link := some ["p"]
     logo := Outcome.panic "no entry found for key"
     pages := none
     docListing := []
     folderListing := [("B", ["p", "posts", "A", "B.html"])]
     path := ["build", "posts", "A.html"]
     dir := some ["build", "posts", "A"] },
   { kind := "index"
     name := "Home"
     breadcrumbs := []
     back_link := none
     logo := Outcome.panic "no entry found for key"
     pages := some (Outcome.panic "no entry found for key")
     docListing := []
     folderListing := [("A", ["p", "posts", "A.html"])]
     path := ["build", "index.html"]
     dir := some ["build", "posts"] }]

/-! ### Lemmas and claim theorems -/

theorem alistGet_insert_self {α : Type} (m : List (Uuid × α)) (k : Uuid) (v : α) :
    alistGet (alistInsert m k v) k = some v := by
  induction m with
  | nil => simp [alistInsert, alistGet, List.find?]
  | cons hd tl ih =>
    by_cases hhd : (hd.1 == k) = true
    · simp [alistInsert, hhd, alistGet, List.find?]
    · have hhd' : (hd.1 == k) = false := by
        cases hb : hd.1 == k
        · rfl
        · exact absurd hb hhd
      simp only [alistInsert, hhd', Bool.false_eq_true, if_false]
      simpa [alistGet, List.find?, hhd'] using ih

theorem alistGet_insert_other {α : Type} (m : List (Uuid × α)) (k k' : Uuid)
    (v : α) (hne : k ≠ k') :
    alistGet (alistInsert m k v) k' = alistGet m k' := by
  have hkk : (k == k') = false := by
    cases hb : k == k'
    · rfl
    · exact absurd (by simpa using hb) hne
  induction m with
  | nil => simp [alistInsert, alistGet, List.find?, hkk]
  | cons hd tl ih =>
    by_cases hhd : (hd.1 == k) = true
    · have e1 : hd.1 = k := by simpa using hhd
      have h2 : (hd.1 == k') = false := by
        cases hb : hd.1 == k'
        · rfl
        · exact absurd (e1 ▸ (by simpa using hb)) hne
      simp [alistInsert, hhd, alistGet, List.find?, hkk, h2, e1]
    · have hhd' : (hd.1 == k) = false := by
        cases hb : hd.1 == k
        · rfl
        · exact absurd hb hhd
      simp only [alistInsert, hhd', Bool.false_eq_true, if_false]
      cases hb : hd.1 == k'
      · simpa [alistGet, List.find?, hb] using ih
      · simp [alistGet, List.find?, hb]

theorem alistGet_extend_not_mem {α : Type} (m : List (Uuid × α))
    (kvs : List (Uuid × α)) (k : Uuid) (h : k ∉ kvs.map Prod.fst) :
    alistGet (alistExtend m kvs) k = alistGet m k := by
  induction kvs generalizing m with
  | nil => rfl
  | cons kv rest ih =>
    simp only [List.map_cons, List.mem_cons] at h
    push_neg at h
    calc alistGet (alistExtend (alistInsert m kv.1 kv.2) rest) k
        = alistGet (alistInsert m kv.1 kv.2) k := ih _ h.2
      _ = alistGet m k := alistGet_insert_other _ _ _ _ (fun e => h.1 e.symm)

theorem alistGet_extend_mem {α : Type} (m : List (Uuid × α))
    (kvs : List (Uuid × α)) (k : Uuid) (v : α)
    (hnd : (kvs.map Prod.fst).Nodup) (hmem : (k, v) ∈ kvs) :
    alistGet (alistExtend m kvs) k = some v := by
  induction kvs generalizing m with
  | nil => cases hmem
  | cons kv rest ih =>
    simp only [List.map_cons, List.nodup_cons] at hnd
    rcases List.mem_cons.mp hmem with hmem | hmem
    · subst hmem
      have : alistGet (alistExtend (alistInsert m k v) rest) k
          = alistGet (alistInsert m k v) k :=
        alistGet_extend_not_mem _ _ _ hnd.1
      rw [alistExtend, List.foldl_cons, ← alistExtend, this,
        alistGet_insert_self]
    · exact ih _ hnd.2 hmem

/-! ### Claim theorems -/
/-- **C7**: loading a persisted build cache whose version tag differs
from the current program version discards the entire mapping: the result
is the empty default cache carrying the current version tag. -/
theorem C7_version_mismatch_discards (rc : RenderCache)
    (h : rc.version ≠ CRATE_VERSION) :
    RenderCache.load (some (some rc)) = .ok RenderCache.defaultCache ∧
    RenderCache.defaultCache.cache = [] ∧
    RenderCache.defaultCache.version = CRATE_VERSION := by
  refine ⟨?_, rfl, rfl⟩
  have hb : (rc.version == CRATE_VERSION) = false := by
    cases hb : rc.version == CRATE_VERSION
    · rfl
    · exact absurd (by simpa using hb) h
  simp [RenderCache.load, RenderCache.is_current_version, hb]

theorem C7_witness :
    RenderCache.load
        (some (some { version := "9.9.9", cache := [(uuidA, 5)] })) =
      .ok RenderCache.defaultCache ∧
    RenderCache.defaultCache.cache = [] ∧
    RenderCache.defaultCache.version = CRATE_VERSION :=
  C7_version_mismatch_discards { version := "9.9.9", cache := [(uuidA, 5)] }
    (by decide)

/-- **C2** counterexample: `RenderCache::save` performs no rename at
all — it creates and writes the final cache path
`build/render_cache.json` directly, refuting that the cache JSON is
first written to a temporary file and then renamed over the final
path. -/
theorem C2_counterexample :
    (RenderCache.saveOps RenderCache.defaultCache ["build"]).all
        (fun op => !op.isRename) = true ∧
    RenderCache.saveOps RenderCache.defaultCache ["build"] =
      [.create ["build", "render_cache.json"],
       .writeCacheJson ["build", "render_cache.json"]
         RenderCache.defaultCache] := by
  exact ⟨rfl, rfl⟩

/-- **C2** (amended): at run end (`gen_index`) the cache is saved by
`RenderCache::save`, which creates the final cache path directly and
writes the JSON there, with no temporary file and no rename — an
interrupted save can leave a truncated cache file; it is `Config::save`
that uses the temp-write + rename pattern. -/
theorem C2_amended_save_not_atomic (c : RenderCache) (cfg : Config)
    (build_root path : FsPath) :
    RenderCache.saveOps c build_root =
      [.create (build_root ++ ["render_cache.json"]),
       .writeCacheJson (build_root ++ ["render_cache.json"]) c] ∧
    (RenderCache.saveOps c build_root).all (fun op => !op.isRename) = true ∧
    (∀ (g : Generator) (recs : List PageRender) (ops : List FsOp),
      g.gen_index = .ok (recs, ops) →
      ops = RenderCache.saveOps g.render_cache g.root) ∧
    Config.saveOps cfg path =
      [.create (withExtension path "json.tmp"),
       .writeConfigJson (withExtension path "json.tmp") cfg,
       .rename (withExtension path "json.tmp") path] := by
  refine ⟨rfl, rfl, ?_, rfl⟩
  intro g recs ops h
  unfold Generator.gen_index at h
  dsimp only at h
  rcases hd : g.genDocs [("Home", g.urlPrefix)] (g.root ++ ["posts"])
      g.manifest.posts.documents with e | ⟨docs, docRecs⟩
  · rw [hd] at h; cases h
  · rw [hd] at h
    rcases hs : g.genSubfolders [("Home", g.urlPrefix)] (g.root ++ ["posts"])
        g.manifest.posts.folders with e | ⟨subs, subRecs⟩
    · rw [hs] at h; cases h
    · rw [hs] at h
      cases h
      rfl

theorem C2_amended_witness :
    (exGen [] (.node [] [])).gen_index =
      .ok ([{ kind := "index"
              name := "Home"
              breadcrumbs := []
              back_link := none
              logo := (exGen [] (.node [] [])).logo_svg
              pages := some ((exGen [] (.node [] [])).doc_pages uuidA)
              docListing := []
              folderListing := []
              path := ["build", "index.html"]
              dir := some ["build", "posts"] }],
        RenderCache.saveOps RenderCache.defaultCache ["build"]) ∧
    RenderCache.saveOps RenderCache.defaultCache ["build"] =
      RenderCache.saveOps (exGen [] (.node [] [])).render_cache
        (exGen [] (.node [] [])).root := by
  refine ⟨rfl, ?_⟩
  exact (C2_amended_save_not_atomic RenderCache.defaultCache exConfig
    ["build"] ["cfg.json"]).2.2.1 (exGen [] (.node [] [])) _ _ rfl

/-- **C8** counterexample: looking up an id absent from the
rendered-artifact map panics with the fixed standard-library message
`no entry found for key`, which does not carry the offending id —
refuting that the resulting error carries the offending path/id. -/
theorem C8_counterexample :
    (exGen [] (.node [] [])).doc_pages uuidD = .panic "no entry found for key" ∧
    containsStr "no entry found for key" uuidD = false := by
  exact ⟨rfl, by decide⟩

/-- **C8** (amended): during site assembly, any lookup of a document id
absent from the rendered-artifact map is fatal — `&self.svgs[&id]`
panics and generation aborts — but the panic message is the fixed
`no entry found for key`, independent of the id, so it does not carry
the offending path/id. -/
theorem C8_amended_absent_id_panics (g : Generator) (id : Uuid)
    (h : alistGet g.svgs id = none) :
    g.doc_pages id = .panic "no entry found for key" := by
  simp [Generator.doc_pages, h]

theorem C8_amended_witness :
    (exGen [] (.node [] [])).doc_pages uuidD = .panic "no entry found for key" :=
  C8_amended_absent_id_panics (exGen [] (.node [] [])) uuidD rfl

/-- **C10**: a document whose rendered page-artifact list is empty makes
every first-page operation panic out of bounds instead of returning a
wrapped error: `doc_first_page` on an empty list panics, the logo image
of every page is `doc_first_page` of the logo document, a fresh render
of an archive with no page-content (`.rm`) entries does produce an empty
list, and every emitted document page embeds the logo and page-list
values — so generation implicitly requires every referenced document,
the logo in particular, to have at least one rendered page. -/
theorem C10_first_page_requires_nonempty :
    (∀ (g : Generator) (id : Uuid), alistGet g.svgs id = some [] →
      g.doc_first_page id =
        .panic "index out of bounds: the len is 0 but the index is 0") ∧
    (∀ g : Generator, g.logo_svg = g.doc_first_page g.manifest.logo.id) ∧
    (∀ (urlPrefix : FsPath) (env : RenderEnv) (id : Uuid) (crop : Bool)
        (entries : List ZipEntry), env.zips id = some entries →
      entries.all (fun e => !strEndsWith e.name ".rm") = true →
      render_notebook_zip urlPrefix env id crop = .ok []) ∧
    (∀ (g : Generator) (bc : List (String × FsPath)) (parent : FsPath)
        (name : String) (id : Uuid) (link : FsPath) (r : PageRender),
      g.gen_doc bc parent name id = .ok (link, r) →
      r.logo = g.logo_svg ∧ r.pages = some (g.doc_pages id)) := by
  refine ⟨?_, fun _ => rfl, ?_, ?_⟩
  · intro g id h
    simp [Generator.doc_first_page, Generator.doc_pages, h]
  · intro urlPrefix env id crop entries hz hall
    have hre : ∀ es : List ZipEntry,
        es.all (fun e => !strEndsWith e.name ".rm") = true →
        renderEntries urlPrefix id es = .ok [] := by
      intro es hes
      induction es with
      | nil => rfl
      | cons e rest ih =>
        simp only [List.all_cons, Bool.and_eq_true, Bool.not_eq_true'] at hes
        simp only [renderEntries, hes.1, Bool.false_eq_true, if_false]
        exact ih hes.2
    unfold render_notebook_zip
    rw [hz]
    exact hre entries hall
  · intro g bc parent name id link r h
    unfold Generator.gen_doc at h
    dsimp only at h
    rcases hrel : g.relative_to_root
        (parent ++ [String.append (sanitize name) ".html"]) with e | l
    · rw [hrel] at h; cases h
    · rw [hrel] at h
      cases h
      exact ⟨rfl, rfl⟩

theorem C10_witness :
    (exGen [(uuidC, [])] (.node [] [])).doc_first_page uuidC =
      .panic "index out of bounds: the len is 0 but the index is 0" ∧
    render_notebook_zip ["p"]
        { dirs := fun _ => none
          zips := fun _ => some [{ name := "metadata.json", content := "", rmParseOk := true }] }
        uuidC false = .ok [] :=
  ⟨C10_first_page_requires_nonempty.1 (exGen [(uuidC, [])] (.node [] []))
      uuidC rfl,
   C10_first_page_requires_nonempty.2.2.1 ["p"] _ uuidC false
      [{ name := "metadata.json", content := "", rmParseOk := true }] rfl
      (by decide)⟩

/-- Inversion of a successful `gen_folder` call: the folder link is the
relativised `<sanitized>.html` sibling path, children were generated
under the extended trail inside the `<sanitized>` directory, and the
folder's own page record is emitted last. -/
theorem gen_folder_inv {g : Generator} {bc : List (String × FsPath)}
    {parent : FsPath} {folder : String} {posts : Posts} {link : FsPath}
    {recs : List PageRender}
    (h : g.gen_folder bc parent folder posts = .ok (link, recs)) :
    ∃ docs docRecs sub_folders subRecs,
      g.relative_to_root
          (parent ++ [String.append (sanitize folder) ".html"]) = .ok link ∧
      g.genDocs (bc ++ [(folder, link)]) (parent ++ [sanitize folder])
          posts.documents = .ok (docs, docRecs) ∧
      g.genSubfolders (bc ++ [(folder, link)]) (parent ++ [sanitize folder])
          posts.folders = .ok (sub_folders, subRecs) ∧
      recs = docRecs ++ subRecs ++
        [{ kind := "folder"
           name := folder
           breadcrumbs := bc
           back_link := (bc.getLast?).map (·.2)
           logo := g.logo_svg
           pages := none
           docListing := docs.map (fun d => (d.1, g.doc_first_page d.2.1, d.2.2))
           folderListing := sub_folders
           path := parent ++ [String.append (sanitize folder) ".html"]
           dir := some (parent ++ [sanitize folder]) }] := by
  cases posts with
  | node documents folders =>
    unfold Generator.gen_folder at h
    dsimp only at h
    rcases hrel : g.relative_to_root
        (parent ++ [String.append (sanitize folder) ".html"]) with e | fl
    · rw [hrel] at h; cases h
    · rw [hrel] at h
      dsimp only at h
      rcases hd : g.genDocs (bc ++ [(folder, fl)]) (parent ++ [sanitize folder])
          documents with e | ⟨docs, docRecs⟩
      · rw [hd] at h; cases h
      · rw [hd] at h
        dsimp only at h
        rcases hs : g.genSubfolders (bc ++ [(folder, fl)])
            (parent ++ [sanitize folder]) folders with e | ⟨subs, subRecs⟩
        · rw [hs] at h; cases h
        · rw [hs] at h
          dsimp only at h
          cases h
          exact ⟨docs, docRecs, subs, subRecs, rfl, hd, hs, rfl⟩

/-- Inversion of a successful `gen_doc` call: the emitted record renders
the passed trail, takes the trail's last link as back link, and lands at
the sanitized `<name>.html` under `parent`. -/
theorem gen_doc_inv {g : Generator} {bc : List (String × FsPath)}
    {parent : FsPath} {name : String} {id : Uuid} {link : FsPath}
    {r : PageRender}
    (h : g.gen_doc bc parent name id = .ok (link, r)) :
    g.relative_to_root
        (parent ++ [String.append (sanitize name) ".html"]) = .ok link ∧
    r = { kind := "document"
          name := name
          breadcrumbs := bc
          back_link := (bc.getLast?).map (·.2)
          logo := g.logo_svg
          pages := some (g.doc_pages id)
          docListing := []
          folderListing := []
          path := parent ++ [String.append (sanitize name) ".html"]
          dir := none } := by
  unfold Generator.gen_doc at h
  dsimp only at h
  rcases hrel : g.relative_to_root
      (parent ++ [String.append (sanitize name) ".html"]) with e | l
  · rw [hrel] at h; cases h
  · rw [hrel] at h
    cases h
    exact ⟨rfl, rfl⟩

/-- **C9**: a name used as an output path segment is its sanitized form
— alphanumeric characters kept, every other character replaced by the
placeholder `-` (position by position, length preserved); a document
page lands at `<sanitized>.html`, and a folder's child directory and
sibling `.html` file use the same sanitized segment. -/
theorem C9_sanitized_path_segments :
    (∀ (name : String) (i : Nat) (c : Char), name.data[i]? = some c →
      (sanitize name).data[i]? = some (if c.isAlphanum then c else '-')) ∧
    (∀ name : String, (sanitize name).length = name.length) ∧
    (∀ (g : Generator) (bc : List (String × FsPath)) (parent : FsPath)
        (name : String) (id : Uuid) (link : FsPath) (r : PageRender),
      g.gen_doc bc parent name id = .ok (link, r) →
      r.path = parent ++ [String.append (sanitize name) ".html"] ∧
      r.dir = none) ∧
    (∀ (g : Generator) (bc : List (String × FsPath)) (parent : FsPath)
        (folder : String) (posts : Posts) (link : FsPath)
        (recs : List PageRender),
      g.gen_folder bc parent folder posts = .ok (link, recs) →
      ∃ r, recs.getLast? = some r ∧
        r.dir = some (parent ++ [sanitize folder]) ∧
        r.path = parent ++ [String.append (sanitize folder) ".html"]) := by
  refine ⟨?_, ?_, ?_, ?_⟩
  · intro name i c h
    simp [sanitize, List.getElem?_map, h]
  · intro name
    show ((sanitize name).data).length = name.data.length
    simp [sanitize]
  · intro g bc parent name id link r h
    rcases gen_doc_inv h with ⟨-, hr⟩
    subst hr
    exact ⟨rfl, rfl⟩
  · intro g bc parent folder posts link recs h
    rcases gen_folder_inv h with ⟨docs, docRecs, subs, subRecs, -, -, -, hrecs⟩
    subst hrecs
    exact ⟨_, List.getLast?_concat _, rfl, rfl⟩

theorem C9_witness :
    (sanitize "My Soup").data[2]? =
      some (if Char.isAlphanum ' ' then ' ' else '-') ∧
    ({ kind := "document"
       name := "My Soup"
       breadcrumbs := [("Home", [("p" : String)])]
       back_link := some ["p"]
       logo := (exGen [] (.node [] [])).logo_svg
       pages := some ((exGen [] (.node [] [])).doc_pages uuidC)
       docListing := []
       folderListing := []
       path := ["build", "posts", "My-Soup.html"]
       dir := none } : PageRender).path =
      ["build", "posts"] ++ [String.append (sanitize "My Soup") ".html"] ∧
    ({ kind := "document"
       name := "My Soup"
       breadcrumbs := [("Home", [("p" : String)])]
       back_link := some ["p"]
       logo := (exGen [] (.node [] [])).logo_svg
       pages := some ((exGen [] (.node [] [])).doc_pages uuidC)
       docListing := []
       folderListing := []
       path := ["build", "posts", "My-Soup.html"]
       dir := none } : PageRender).dir = none :=
  ⟨C9_sanitized_path_segments.1 "My Soup" 2 ' ' rfl,
   (C9_sanitized_path_segments.2.2.1 (exGen [] (.node [] []))
      [("Home", ["p"])] ["build", "posts"] "My Soup" uuidC
      ["p", "posts", "My-Soup.html"] _ rfl).1,
   (C9_sanitized_path_segments.2.2.1 (exGen [] (.node [] []))
      [("Home", ["p"])] ["build", "posts"] "My Soup" uuidC
      ["p", "posts", "My-Soup.html"] _ rfl).2⟩

/-- **C1**: a document takes the skip path — reconstruction from the
existing output directory, never touching the archive — exactly when the
cache binds its id to a timestamp equal to the current one; any other
cache state (no entry, or an entry differing in either direction) takes
the full `render_notebook_zip` path; and after a successful run the
updated cache binds every manifest document's id to its current
timestamp. -/
theorem C1_cache_decision_iff :
    (∀ (cache : RenderCache) (urlPrefix : FsPath) (env : RenderEnv)
        (doc : DocumentMeta) (crop : Bool),
      (cache.get doc.id = some doc.modified_client →
        render_doc_meta cache urlPrefix env doc crop =
          (match env.dirs doc.id with
           | none => .err "io error reading notebook svg directory"
           | some files =>
             Outcome.map (fun pages => (doc.id, pages))
               (reconstructPages urlPrefix doc.id files))) ∧
      (cache.get doc.id ≠ some doc.modified_client →
        render_doc_meta cache urlPrefix env doc crop =
          (match render_notebook_zip urlPrefix env doc.id crop with
           | .ok pages => .ok (doc.id, pages)
           | .error e => .err e))) ∧
    (∀ (cache : RenderCache) (urlPrefix : FsPath) (env : RenderEnv)
        (manifest : Manifest) (svgs : List (Uuid × List FsPath))
        (cache' : RenderCache),
      render_all_svgs cache urlPrefix env manifest = .ok (svgs, cache') →
      (manifest.docs.map (fun d => d.id)).Nodup →
      ∀ d ∈ manifest.docs, cache'.get d.id = some d.modified_client) := by
  constructor
  · intro cache urlPrefix env doc crop
    constructor
    · intro h
      unfold render_doc_meta
      dsimp only
      rw [h]
      dsimp only
      rw [if_pos rfl]
    · intro h
      unfold render_doc_meta
      dsimp only
      rcases hget : cache.get doc.id with _ | t
      · rfl
      · rw [hget] at h
        have hne : ¬ t = doc.modified_client := fun e => h (by rw [e])
        dsimp only
        rw [if_neg hne]
  · intro cache urlPrefix env manifest svgs cache' h hnd d hd
    unfold render_all_svgs at h
    rcases hh : render_doc_meta cache urlPrefix env manifest.home false
        with home_r | e | m
    all_goals rw [hh] at h
    case err => cases h
    case panic => cases h
    rcases hl : render_doc_meta cache urlPrefix env manifest.logo true
        with logo_r | e | m
    all_goals rw [hl] at h
    case err => cases h
    case panic => cases h
    rcases hp : renderPostsDocs cache urlPrefix env manifest.posts.docsList
        with posts_rs | e | m
    all_goals rw [hp] at h
    case err => cases h
    case panic => cases h
    dsimp only at h
    cases h
    show alistGet (alistExtend cache.cache
      (manifest.docs.map (fun d => (d.id, d.modified_client)))) d.id =
        some d.modified_client
    apply alistGet_extend_mem
    · have : (manifest.docs.map (fun d => (d.id, d.modified_client))).map
          Prod.fst = manifest.docs.map (fun d => d.id) := by
        simp [List.map_map]
      rw [this]
      exact hnd
    · exact List.mem_map_of_mem _ hd

theorem C1_witness :
    render_doc_meta cacheAB ["p"] envHit exHome false =
      (match envHit.dirs exHome.id with
       | none => Outcome.err "io error reading notebook svg directory"
       | some files =>
         Outcome.map (fun pages => (exHome.id, pages))
           (reconstructPages ["p"] exHome.id files)) ∧
    render_doc_meta cacheAB ["p"] envHit exSoup false =
      (match render_notebook_zip ["p"] envHit exSoup.id false with
       | .ok pages => .ok (exSoup.id, pages)
       | .error e => .err e) ∧
    (RenderCache.mk CRATE_VERSION [(uuidA, 10), (uuidB, 20)]).get exHome.id =
      some exHome.modified_client :=
  ⟨(C1_cache_decision_iff.1 cacheAB ["p"] envHit exHome false).1 rfl,
   (C1_cache_decision_iff.1 cacheAB ["p"] envHit exSoup false).2 (by decide),
   C1_cache_decision_iff.2 cacheAB ["p"] envHit manifest0
     [(uuidA, [["p", "svg", uuidA, "0.svg"]]),
      (uuidB, [["p", "svg", uuidB, "0.svg"]])]
     (RenderCache.mk CRATE_VERSION [(uuidA, 10), (uuidB, 20)])
     rfl (by decide) exHome (List.mem_cons_self _ _)⟩

/-- **C3** counterexample: a fresh render emits pages in archive entry
order, not numeric order — an archive listing pages 1, 10, 2 in that
order produces the list 1.svg, 10.svg, 2.svg, which is not in ascending
numeric page order. -/
theorem C3_counterexample :
    render_notebook_zip ["p"] envOrder uuidC false =
      .ok [["p", "svg", uuidC, "1.svg"], ["p", "svg", uuidC, "10.svg"],
           ["p", "svg", uuidC, "2.svg"]] ∧
    ¬ List.Sorted pageLe
        [["p", "svg", uuidC, "1.svg"], ["p", "svg", uuidC, "10.svg"],
         ["p", "svg", uuidC, "2.svg"]] := by
  exact ⟨rfl, by decide⟩

/-- **C3** (amended): on a cache hit the reconstructed page list is a
permutation of the listed directory entries sorted by file stem parsed
as a number (so stems 0..9,10 order as 0,1,...,10, never
lexicographically); on a fresh render the produced list is in the
archive's entry order — ascending numeric order only when the archive
happens to list pages that way. -/
theorem C3_page_ordering :
    (∀ (urlPrefix : FsPath) (id : Uuid) (files : List String)
        (pages : List FsPath),
      reconstructPages urlPrefix id files = .ok pages →
      List.Sorted pageLe pages ∧
      pages.Perm (files.map (fun f => urlPrefix ++ ["svg", id, f]))) ∧
    (∀ (urlPrefix : FsPath) (env : RenderEnv) (id : Uuid) (crop : Bool)
        (entries : List ZipEntry) (pages : List FsPath),
      env.zips id = some entries →
      render_notebook_zip urlPrefix env id crop = .ok pages →
      pages = (entries.filter (fun e => strEndsWith e.name ".rm")).map
        (fun e => urlPrefix ++
          ["svg", id,
           String.append (toString ((pageNumberOfEntry id e.name).getD 0)) ".svg"])) := by
  constructor
  · intro urlPrefix id files pages h
    unfold reconstructPages at h
    dsimp only at h
    by_cases hlen : (files.map (fun f => urlPrefix ++ ["svg", id, f])).length < 2
    · rw [if_pos hlen] at h
      cases h
      refine ⟨?_, List.Perm.refl _⟩
      rcases files with _ | ⟨f, _ | ⟨f2, tl⟩⟩
      · exact List.sorted_nil
      · exact List.sorted_singleton _
      · simp only [List.length_map, List.length_cons] at hlen
        omega
    · rw [if_neg hlen] at h
      by_cases hall : (files.map (fun f => urlPrefix ++ ["svg", id, f])).all
          (fun p => (pageKey p).isSome) = true
      · rw [if_pos hall] at h
        cases h
        exact ⟨List.sorted_insertionSort pageLe _,
          List.perm_insertionSort pageLe _⟩
      · rw [if_neg hall] at h
        cases h
  · intro urlPrefix env id crop entries pages hz h
    have main : ∀ (es : List ZipEntry) (ps : List FsPath),
        renderEntries urlPrefix id es = .ok ps →
        ps = (es.filter (fun e => strEndsWith e.name ".rm")).map
          (fun e => urlPrefix ++
            ["svg", id,
             String.append (toString ((pageNumberOfEntry id e.name).getD 0))
               ".svg"]) := by
      intro es
      induction es with
      | nil =>
        intro ps h
        cases h
        rfl
      | cons e rest ih =>
        intro ps h
        by_cases hrm : strEndsWith e.name ".rm" = true
        · simp only [renderEntries, hrm, if_true] at h
          by_cases hok : e.rmParseOk = true
          · rw [if_pos hok] at h
            rcases hpn : pageNumberOfEntry id e.name with _ | n
            · rw [hpn] at h; cases h
            · rw [hpn] at h
              dsimp only at h
              rcases hre : renderEntries urlPrefix id rest with err | tl
              · rw [hre] at h; cases h
              · rw [hre] at h
                dsimp only at h
                cases h
                simp only [List.filter_cons, hrm, if_true, List.map_cons,
                  hpn, Option.getD_some]
                rw [ih tl hre]
                rfl
          · rw [if_neg hok] at h
            cases h
        · have hrm' : strEndsWith e.name ".rm" = false := by
            cases hb : strEndsWith e.name ".rm"
            · rfl
            · exact absurd hb hrm
          simp only [renderEntries, hrm', Bool.false_eq_true, if_false] at h
          simp only [List.filter_cons, hrm', Bool.false_eq_true, if_false]
          exact ih ps h
    unfold render_notebook_zip at h
    rw [hz] at h
    exact main entries pages h

theorem C3_witness :
    List.Sorted pageLe
        [["p", "svg", uuidC, "0.svg"], ["p", "svg", uuidC, "2.svg"],
         ["p", "svg", uuidC, "10.svg"]] ∧
    List.Perm
        [["p", "svg", uuidC, "0.svg"], ["p", "svg", uuidC, "2.svg"],
         ["p", "svg", uuidC, "10.svg"]]
        (["10.svg", "2.svg", "0.svg"].map (fun f => ["p"] ++ ["svg", uuidC, f])) :=
  C3_page_ordering.1 ["p"] uuidC ["10.svg", "2.svg", "0.svg"]
    [["p", "svg", uuidC, "0.svg"], ["p", "svg", uuidC, "2.svg"],
     ["p", "svg", uuidC, "10.svg"]] rfl

/-- **C4** counterexample: a cache hit (entry for `uuidC` exactly equal
to the document's timestamp) whose backing directory lists two entries,
one with the unparsable stem `x`, does not fail with a reported
cache-corruption error — the process panics inside `sort_by_key`'s
`unwrap` when the key of `x.svg` is computed. -/
theorem C4_counterexample :
    cacheC.get exSoup.id = some exSoup.modified_client ∧
    render_doc_meta cacheC ["p"] envBadStem exSoup false =
      .panic "called Result unwrap on an Err value: ParseIntError" :=
  ⟨rfl, rfl⟩

/-- **C4** (amended): on a cache hit, a missing backing directory makes
the run fail with the propagated I/O error (not an error distinctly
labelled as cache corruption); a directory listing of at least two
entries among which some file stem fails to parse as a page number
panics via `unwrap` inside `sort_by_key`'s key closure instead of
returning an error; and a listing of fewer than two entries is returned
as read, its stems never parsed at all. In no case does the document
fall through to the full render path — the outcome is determined by the
backing directory alone and is never a silent re-render. -/
theorem C4_corruption_fatal_never_miss :
    ∀ (cache : RenderCache) (urlPrefix : FsPath) (env : RenderEnv)
      (doc : DocumentMeta) (crop : Bool),
    cache.get doc.id = some doc.modified_client →
    (env.dirs doc.id = none →
      render_doc_meta cache urlPrefix env doc crop =
        .err "io error reading notebook svg directory") ∧
    (∀ files, env.dirs doc.id = some files →
      2 ≤ files.length →
      (files.map (fun f => urlPrefix ++ ["svg", doc.id, f])).all
          (fun p => (pageKey p).isSome) = false →
      render_doc_meta cache urlPrefix env doc crop =
        .panic "called Result unwrap on an Err value: ParseIntError") ∧
    (∀ files, env.dirs doc.id = some files →
      files.length < 2 →
      render_doc_meta cache urlPrefix env doc crop =
        .ok (doc.id, files.map (fun f => urlPrefix ++ ["svg", doc.id, f]))) := by
  intro cache urlPrefix env doc crop hget
  refine ⟨?_, ?_, ?_⟩
  · intro hdirs
    unfold render_doc_meta
    dsimp only
    rw [hget]
    dsimp only
    rw [if_pos rfl, hdirs]
  · intro files hdirs hlen hall
    unfold render_doc_meta
    dsimp only
    rw [hget]
    dsimp only
    rw [if_pos rfl, hdirs]
    dsimp only
    unfold reconstructPages
    dsimp only
    rw [if_neg (by rw [List.length_map]; omega)]
    rw [if_neg (by rw [hall]; exact Bool.false_ne_true)]
    rfl
  · intro files hdirs hlen
    unfold render_doc_meta
    dsimp only
    rw [hget]
    dsimp only
    rw [if_pos rfl, hdirs]
    dsimp only
    unfold reconstructPages
    dsimp only
    rw [if_pos (by rw [List.length_map]; omega)]
    rfl

theorem C4_witness :
    render_doc_meta cacheC ["p"] envEmpty exSoup false =
      .err "io error reading notebook svg directory" ∧
    render_doc_meta cacheC ["p"] envBadStem exSoup false =
      .panic "called Result unwrap on an Err value: ParseIntError" ∧
    render_doc_meta cacheC ["p"] envLoneStem exSoup false =
      .ok (exSoup.id, ["x.svg"].map (fun f => ["p"] ++ ["svg", exSoup.id, f])) :=
  ⟨(C4_corruption_fatal_never_miss cacheC ["p"] envEmpty exSoup false rfl).1
      rfl,
   (C4_corruption_fatal_never_miss cacheC ["p"] envBadStem exSoup false
      rfl).2.1 ["0.svg", "x.svg"] rfl (by decide) rfl,
   (C4_corruption_fatal_never_miss cacheC ["p"] envLoneStem exSoup false
      rfl).2.2 ["x.svg"] rfl (by decide)⟩

theorem root_doc_by_name_isOk (doc_name : String) (root_id : Uuid)
    (docs : Documents) :
    (Manifest.root_doc_by_name doc_name root_id docs).isOk = true ↔
      (namedDocsUnder doc_name root_id docs).length = 1 := by
  unfold Manifest.root_doc_by_name
  rcases h : namedDocsUnder doc_name root_id docs with _ | ⟨d, _ | ⟨d2, rest⟩⟩
  · simp [Except.isOk, Except.toBool]
  · simp [Except.isOk, Except.toBool]
  · simp [Except.isOk, Except.toBool]

theorem root_doc_by_name_len_one (doc_name : String) (root_id : Uuid)
    (docs : Documents)
    (h : (namedDocsUnder doc_name root_id docs).length = 1) :
    ∃ m, Manifest.root_doc_by_name doc_name root_id docs = .ok m := by
  unfold Manifest.root_doc_by_name
  rcases hl : namedDocsUnder doc_name root_id docs with _ | ⟨d, _ | ⟨d2, rest⟩⟩
  · rw [hl] at h; cases h
  · exact ⟨DocumentMeta.ofDocument d, rfl⟩
  · rw [hl] at h; simp at h

theorem root_doc_by_name_len_zero (doc_name : String) (root_id : Uuid)
    (docs : Documents)
    (h : (namedDocsUnder doc_name root_id docs).length = 0) :
    Manifest.root_doc_by_name doc_name root_id docs =
      .error s!"Missing {doc_name} notebook in site root" := by
  unfold Manifest.root_doc_by_name
  rcases hl : namedDocsUnder doc_name root_id docs with _ | ⟨d, rest⟩
  · rfl
  · rw [hl] at h; cases h

theorem root_doc_by_name_len_ge2 (doc_name : String) (root_id : Uuid)
    (docs : Documents)
    (h : 2 ≤ (namedDocsUnder doc_name root_id docs).length) :
    Manifest.root_doc_by_name doc_name root_id docs =
      .error s!"Multiple {doc_name} notebooks in site root" := by
  unfold Manifest.root_doc_by_name
  rcases hl : namedDocsUnder doc_name root_id docs with _ | ⟨d, _ | ⟨d2, rest⟩⟩
  · rw [hl] at h; cases h
  · rw [hl] at h; simp at h
  · rfl

theorem posts_build_isOk (root_id : Uuid) (docs : Documents) :
    (Posts.build root_id docs).isOk = true ↔
      (postsFoldersUnder root_id docs).length = 1 := by
  unfold Posts.build
  rcases h : postsFoldersUnder root_id docs with _ | ⟨d, _ | ⟨d2, rest⟩⟩
  · simp [Except.isOk, Except.toBool]
  · simp [Except.isOk, Except.toBool]
  · simp [Except.isOk, Except.toBool]

theorem posts_build_len_one (root_id : Uuid) (docs : Documents)
    (h : (postsFoldersUnder root_id docs).length = 1) :
    ∃ p, Posts.build root_id docs = .ok p := by
  unfold Posts.build
  rcases hl : postsFoldersUnder root_id docs with _ | ⟨d, _ | ⟨d2, rest⟩⟩
  · rw [hl] at h; cases h
  · exact ⟨_, rfl⟩
  · rw [hl] at h; simp at h

theorem posts_build_len_zero (root_id : Uuid) (docs : Documents)
    (h : (postsFoldersUnder root_id docs).length = 0) :
    Posts.build root_id docs = .error "Missing Posts folder in site root" := by
  unfold Posts.build
  rcases hl : postsFoldersUnder root_id docs with _ | ⟨d, rest⟩
  · rfl
  · rw [hl] at h; cases h

theorem posts_build_len_ge2 (root_id : Uuid) (docs : Documents)
    (h : 2 ≤ (postsFoldersUnder root_id docs).length) :
    Posts.build root_id docs = .error "Multiple Posts folders in site root" := by
  unfold Posts.build
  rcases hl : postsFoldersUnder root_id docs with _ | ⟨d, _ | ⟨d2, rest⟩⟩
  · rw [hl] at h; cases h
  · rw [hl] at h; simp at h
  · rfl

theorem resolveSiteRoot_parse_some (root_folder : String) (docs : Documents)
    (id : Uuid) (h : parseUuid root_folder = some id) :
    (resolveSiteRoot root_folder docs).isOk = true ↔
      ∃ d, Documents.get docs id = some d ∧ d.doc_type = "CollectionType" := by
  unfold resolveSiteRoot
  rw [h]
  dsimp only
  rcases hg : Documents.get docs id with _ | d
  · simp [Except.isOk, Except.toBool]
  · by_cases ht : d.doc_type = "CollectionType"
    · simp [Except.isOk, Except.toBool, ht]
    · simp [Except.isOk, Except.toBool, ht]

theorem resolveSiteRoot_parse_none (root_folder : String) (docs : Documents)
    (h : parseUuid root_folder = none) :
    ((resolveSiteRoot root_folder docs).isOk = true ↔
      (rootMatches root_folder docs).length = 1) ∧
    ((rootMatches root_folder docs).length ≠ 1 →
      resolveSiteRoot root_folder docs =
        .error (rootCountError root_folder
          (rootMatches root_folder docs).length)) := by
  unfold resolveSiteRoot
  rw [h]
  by_cases hl : (rootMatches root_folder docs).length = 1
  · refine ⟨?_, fun hne => absurd hl hne⟩
    rw [dif_pos hl]
    simp [Except.isOk, Except.toBool, hl]
  · refine ⟨?_, fun _ => by rw [dif_neg hl]⟩
    rw [dif_neg hl]
    simp [Except.isOk, Except.toBool, hl]

/-- **C5**: manifest building succeeds exactly under the exactly-one
conditions — the root specifier resolves (an id must exist and be a
folder; a name must match exactly one root-level folder, any other count
yielding the count-reporting error), and exactly one child document
named Home, one named Logo and one child folder named Posts exist under
the resolved root, the zero/multiple cases each failing with an error
naming the offending entry. -/
theorem C5_manifest_build_exactly_one (root_folder : String)
    (docs : Documents) :
    ((Manifest.build root_folder docs).isOk = true ↔
      ∃ rd, resolveSiteRoot root_folder docs = .ok rd ∧
        (namedDocsUnder "Home" rd.id docs).length = 1 ∧
        (namedDocsUnder "Logo" rd.id docs).length = 1 ∧
        (postsFoldersUnder rd.id docs).length = 1) ∧
    (∀ id, parseUuid root_folder = some id →
      ((resolveSiteRoot root_folder docs).isOk = true ↔
        ∃ d, Documents.get docs id = some d ∧
          d.doc_type = "CollectionType")) ∧
    (parseUuid root_folder = none →
      ((resolveSiteRoot root_folder docs).isOk = true ↔
        (rootMatches root_folder docs).length = 1) ∧
      ((rootMatches root_folder docs).length ≠ 1 →
        Manifest.build root_folder docs =
          .error (rootCountError root_folder
            (rootMatches root_folder docs).length))) ∧
    (∀ rd, resolveSiteRoot root_folder docs = .ok rd →
      ((namedDocsUnder "Home" rd.id docs).length = 0 →
        Manifest.build root_folder docs =
          .error (withCtx "Looking for Home notebook"
            "Missing Home notebook in site root")) ∧
      (2 ≤ (namedDocsUnder "Home" rd.id docs).length →
        Manifest.build root_folder docs =
          .error (withCtx "Looking for Home notebook"
            "Multiple Home notebooks in site root")) ∧
      ((namedDocsUnder "Home" rd.id docs).length = 1 →
        ((namedDocsUnder "Logo" rd.id docs).length = 0 →
          Manifest.build root_folder docs =
            .error (withCtx "Looking for Logo notebook"
              "Missing Logo notebook in site root")) ∧
        (2 ≤ (namedDocsUnder "Logo" rd.id docs).length →
          Manifest.build root_folder docs =
            .error (withCtx "Looking for Logo notebook"
              "Multiple Logo notebooks in site root")) ∧
        ((namedDocsUnder "Logo" rd.id docs).length = 1 →
          ((postsFoldersUnder rd.id docs).length = 0 →
            Manifest.build root_folder docs =
              .error (withCtx "Looking for Posts folder"
                "Missing Posts folder in site root")) ∧
          (2 ≤ (postsFoldersUnder rd.id docs).length →
            Manifest.build root_folder docs =
              .error (withCtx "Looking for Posts folder"
                "Multiple Posts folders in site root"))))) := by
  refine ⟨⟨?_, ?_⟩, ?_, ?_, ?_⟩
  · intro hok
    unfold Manifest.build at hok
    rcases hres : resolveSiteRoot root_folder docs with e | rd
    · rw [hres] at hok
      simp [Except.isOk, Except.toBool] at hok
    · rw [hres] at hok
      dsimp only at hok
      rcases hH : Manifest.root_doc_by_name "Home" rd.id docs with e | home
      · rw [hH] at hok; simp [Except.isOk, Except.toBool] at hok
      · rw [hH] at hok
        dsimp only at hok
        rcases hL : Manifest.root_doc_by_name "Logo" rd.id docs with e | logo
        · rw [hL] at hok; simp [Except.isOk, Except.toBool] at hok
        · rw [hL] at hok
          dsimp only at hok
          rcases hP : Posts.build rd.id docs with e | posts
          · rw [hP] at hok; simp [Except.isOk, Except.toBool] at hok
          · refine ⟨rd, rfl, ?_, ?_, ?_⟩
            · exact (root_doc_by_name_isOk "Home" rd.id docs).mp
                (by rw [hH]; rfl)
            · exact (root_doc_by_name_isOk "Logo" rd.id docs).mp
                (by rw [hL]; rfl)
            · exact (posts_build_isOk rd.id docs).mp (by rw [hP]; rfl)
  · rintro ⟨rd, hres, h1, h2, h3⟩
    unfold Manifest.build
    rw [hres]
    dsimp only
    obtain ⟨home, hH⟩ := root_doc_by_name_len_one "Home" rd.id docs h1
    obtain ⟨logo, hL⟩ := root_doc_by_name_len_one "Logo" rd.id docs h2
    obtain ⟨posts, hP⟩ := posts_build_len_one rd.id docs h3
    rw [hH]
    dsimp only
    rw [hL]
    dsimp only
    rw [hP]
    rfl
  · intro id hid
    exact resolveSiteRoot_parse_some root_folder docs id hid
  · intro hnone
    refine ⟨(resolveSiteRoot_parse_none root_folder docs hnone).1, ?_⟩
    intro hne
    have herr := (resolveSiteRoot_parse_none root_folder docs hnone).2 hne
    unfold Manifest.build
    rw [herr]
  · intro rd hres
    refine ⟨?_, ?_, ?_⟩
    · intro h0
      unfold Manifest.build
      rw [hres]
      dsimp only
      rw [root_doc_by_name_len_zero "Home" rd.id docs h0]
      rfl
    · intro hge
      unfold Manifest.build
      rw [hres]
      dsimp only
      rw [root_doc_by_name_len_ge2 "Home" rd.id docs hge]
      rfl
    · intro h1
      obtain ⟨home, hH⟩ := root_doc_by_name_len_one "Home" rd.id docs h1
      refine ⟨?_, ?_, ?_⟩
      · intro hL0
        unfold Manifest.build
        rw [hres]
        dsimp only
        rw [hH]
        dsimp only
        rw [root_doc_by_name_len_zero "Logo" rd.id docs hL0]
        rfl
      · intro hLge
        unfold Manifest.build
        rw [hres]
        dsimp only
        rw [hH]
        dsimp only
        rw [root_doc_by_name_len_ge2 "Logo" rd.id docs hLge]
        rfl
      · intro hL1
        obtain ⟨logo, hL⟩ := root_doc_by_name_len_one "Logo" rd.id docs hL1
        refine ⟨?_, ?_⟩
        · intro hP0
          unfold Manifest.build
          rw [hres]
          dsimp only
          rw [hH]
          dsimp only
          rw [hL]
          dsimp only
          rw [posts_build_len_zero rd.id docs hP0]
        · intro hPge
          unfold Manifest.build
          rw [hres]
          dsimp only
          rw [hH]
          dsimp only
          rw [hL]
          dsimp only
          rw [posts_build_len_ge2 rd.id docs hPge]

theorem C5_witness :
    (Manifest.build "Site" exDocs).isOk = true ∧
    Manifest.build "Site" [rootDoc, logoDoc, postsDoc] =
      .error (withCtx "Looking for Home notebook"
        "Missing Home notebook in site root") :=
  ⟨(C5_manifest_build_exactly_one "Site" exDocs).1.mpr
      ⟨rootDoc, rfl, rfl, rfl, rfl⟩,
   ((C5_manifest_build_exactly_one "Site" [rootDoc, logoDoc, postsDoc]).2.2.2
      rootDoc rfl).1 rfl⟩

theorem hasPfxSeg_append (r xs : FsPath) : hasPfxSeg r (r ++ xs) = true := by
  induction r with
  | nil => rfl
  | cons a rest ih => simp [hasPfxSeg, ih]

theorem stripRoot_append (r xs : FsPath) : stripRoot r (r ++ xs) = .ok xs := by
  unfold stripRoot
  rw [if_pos (hasPfxSeg_append r xs)]
  rw [List.drop_left]

theorem relative_to_root_append (g : Generator) (xs : FsPath) :
    g.relative_to_root (g.root ++ xs) = .ok (g.urlPrefix ++ xs) := by
  unfold Generator.relative_to_root
  rw [stripRoot_append]
  rfl

theorem genDocs_mem {g : Generator} {bc : List (String × FsPath)}
    {parent : FsPath} :
    ∀ {ds : List (String × DocumentMeta)} {out : List (String × Uuid × FsPath)}
      {recs : List PageRender},
    g.genDocs bc parent ds = .ok (out, recs) →
    ∀ nd ∈ ds,
      ∃ link r, g.gen_doc bc parent nd.2.name nd.2.id = .ok (link, r) ∧
        r ∈ recs := by
  intro ds
  induction ds with
  | nil =>
    intro out recs h nd hmem
    cases hmem
  | cons d tl ih =>
    obtain ⟨nm, doc⟩ := d
    intro out recs h nd hmem
    unfold Generator.genDocs at h
    rcases hgd : g.gen_doc bc parent doc.name doc.id with e | ⟨link, r⟩
    · rw [hgd] at h; cases h
    · rw [hgd] at h
      dsimp only at h
      rcases hrest : g.genDocs bc parent tl with e | ⟨out2, recs2⟩
      · rw [hrest] at h; cases h
      · rw [hrest] at h
        dsimp only at h
        cases h
        rcases List.mem_cons.mp hmem with hmem | hmem
        · subst hmem
          exact ⟨link, r, hgd, List.mem_cons_self _ _⟩
        · obtain ⟨l2, r2, hg2, hr2⟩ := ih hrest nd hmem
          exact ⟨l2, r2, hg2, List.mem_cons_of_mem _ hr2⟩

theorem genSubfolders_mem {g : Generator} {bc : List (String × FsPath)}
    {parent : FsPath} :
    ∀ {fs : List (String × Posts)} {links : List (String × FsPath)}
      {recs : List PageRender},
    g.genSubfolders bc parent fs = .ok (links, recs) →
    ∀ np ∈ fs,
      ∃ link recs2, g.gen_folder bc parent np.1 np.2 = .ok (link, recs2) ∧
        ∀ r ∈ recs2, r ∈ recs := by
  intro fs
  induction fs with
  | nil =>
    intro links recs h np hmem
    cases hmem
  | cons f tl ih =>
    obtain ⟨nm, p⟩ := f
    intro links recs h np hmem
    unfold Generator.genSubfolders at h
    rcases hgf : g.gen_folder bc parent nm p with e | ⟨link, recsF⟩
    · rw [hgf] at h; cases h
    · rw [hgf] at h
      dsimp only at h
      rcases hrest : g.genSubfolders bc parent tl with e | ⟨links2, recs2⟩
      · rw [hrest] at h; cases h
      · rw [hrest] at h
        dsimp only at h
        cases h
        rcases List.mem_cons.mp hmem with hmem | hmem
        · subst hmem
          exact ⟨link, recsF, hgf,
            fun r hr => List.mem_append_left _ hr⟩
        · obtain ⟨l2, rs2, hg2, hr2⟩ := ih hrest np hmem
          exact ⟨l2, rs2, hg2,
            fun r hr => List.mem_append_right _ (hr2 r hr)⟩

theorem gen_index_inv {g : Generator} {recs : List PageRender}
    {ops : List FsOp} (h : g.gen_index = .ok (recs, ops)) :
    ∃ docs docRecs subs subRecs,
      g.genDocs [("Home", g.urlPrefix)] (g.root ++ ["posts"])
          g.manifest.posts.documents = .ok (docs, docRecs) ∧
      g.genSubfolders [("Home", g.urlPrefix)] (g.root ++ ["posts"])
          g.manifest.posts.folders = .ok (subs, subRecs) ∧
      (∀ r ∈ docRecs, r ∈ recs) ∧ (∀ r ∈ subRecs, r ∈ recs) := by
  unfold Generator.gen_index at h
  dsimp only at h
  rcases hd : g.genDocs [("Home", g.urlPrefix)] (g.root ++ ["posts"])
      g.manifest.posts.documents with e | ⟨docs, docRecs⟩
  · rw [hd] at h; cases h
  · rw [hd] at h
    dsimp only at h
    rcases hs : g.genSubfolders [("Home", g.urlPrefix)] (g.root ++ ["posts"])
        g.manifest.posts.folders with e | ⟨subs, subRecs⟩
    · rw [hs] at h; cases h
    · rw [hs] at h
      dsimp only at h
      cases h
      refine ⟨docs, docRecs, subs, subRecs, rfl, rfl, ?_, ?_⟩
      · intro r hr
        exact List.mem_append_left _ (List.mem_append_left _ hr)
      · intro r hr
        exact List.mem_append_left _ (List.mem_append_right _ hr)

/-- **C6**: under a successful `gen_index`, a document nested under
folders `[A, B]` is rendered with breadcrumb trail
`[("Home", url prefix), (A, link of posts/A.html), (B, link of
posts/A/B.html)]` in that order, and its back link is the trail's last
link — `B`'s folder-page link; a top-level document gets the trail
`[("Home", url prefix)]` and the Home link as back link. -/
theorem C6_breadcrumb_trails :
    ∀ (g : Generator) (recs : List PageRender) (ops : List FsOp),
    g.gen_index = .ok (recs, ops) →
    (∀ nd ∈ g.manifest.posts.documents,
      ∃ r ∈ recs, r.kind = "document" ∧ r.name = nd.2.name ∧
        r.breadcrumbs = [("Home", g.urlPrefix)] ∧
        r.back_link = some g.urlPrefix) ∧
    (∀ (A : String) (pa : Posts) (B : String) (pb : Posts)
        (nd : String × DocumentMeta),
      (A, pa) ∈ g.manifest.posts.folders →
      (B, pb) ∈ pa.folders →
      nd ∈ pb.documents →
      ∃ r ∈ recs, r.kind = "document" ∧ r.name = nd.2.name ∧
        r.breadcrumbs =
          [("Home", g.urlPrefix),
           (A, g.urlPrefix ++ ["posts", String.append (sanitize A) ".html"]),
           (B, g.urlPrefix ++
             ["posts", sanitize A, String.append (sanitize B) ".html"])] ∧
        r.back_link = some (g.urlPrefix ++
          ["posts", sanitize A, String.append (sanitize B) ".html"])) := by
  intro g recs ops hok
  obtain ⟨docs0, docRecs0, subs0, subRecs0, hd0, hs0, hdsub, hssub⟩ :=
    gen_index_inv hok
  constructor
  · intro nd hnd
    obtain ⟨link, r, hgd, hr⟩ := genDocs_mem hd0 nd hnd
    obtain ⟨hrel, hrv⟩ := gen_doc_inv hgd
    subst hrv
    exact ⟨_, hdsub _ hr, rfl, rfl, rfl, rfl⟩
  · intro A pa B pb nd hA hB hnd
    obtain ⟨linkA, recsA, hgfA, hsubA⟩ := genSubfolders_mem hs0 (A, pa) hA
    obtain ⟨docsA, docRecsA, subsA, subRecsA, hrelA, hdA, hsA, hrecsA⟩ :=
      gen_folder_inv hgfA
    have hpA : (g.root ++ ["posts"]) ++ [String.append (sanitize A) ".html"] =
        g.root ++ ["posts", String.append (sanitize A) ".html"] := by
      simp
    rw [hpA] at hrelA
    have hlinkA : linkA =
        g.urlPrefix ++ ["posts", String.append (sanitize A) ".html"] :=
      Except.ok.inj (hrelA.symm.trans (relative_to_root_append g _))
    obtain ⟨linkB, recsB, hgfB, hsubB⟩ := genSubfolders_mem hsA (B, pb) hB
    obtain ⟨docsB, docRecsB, subsB, subRecsB, hrelB, hdB, hsB, hrecsB⟩ :=
      gen_folder_inv hgfB
    have hpB : ((g.root ++ ["posts"]) ++ [sanitize A]) ++
          [String.append (sanitize B) ".html"] =
        g.root ++ ["posts", sanitize A, String.append (sanitize B) ".html"] := by
      simp
    rw [hpB] at hrelB
    have hlinkB : linkB = g.urlPrefix ++
        ["posts", sanitize A, String.append (sanitize B) ".html"] :=
      Except.ok.inj (hrelB.symm.trans (relative_to_root_append g _))
    obtain ⟨link, r, hgd, hr⟩ := genDocs_mem hdB nd hnd
    obtain ⟨hrel, hrv⟩ := gen_doc_inv hgd
    subst hlinkA
    subst hlinkB
    refine ⟨r, ?_, ?_, ?_, ?_, ?_⟩
    · apply hssub
      apply hsubA
      rw [hrecsA]
      apply List.mem_append_left
      apply List.mem_append_right
      apply hsubB
      rw [hrecsB]
      apply List.mem_append_left
      apply List.mem_append_left
      exact hr
    · rw [hrv]
    · rw [hrv]
    · rw [hrv]
      simp
    · rw [hrv]
      dsimp only
      rw [List.getLast?_concat]
      rfl

theorem C6_witness :
    ∃ r ∈ exRecs2, r.kind = "document" ∧ r.name = "Soup" ∧
      r.breadcrumbs =
        [("Home", ["p"]), ("A", ["p", "posts", "A.html"]),
         ("B", ["p", "posts", "A", "B.html"])] ∧
      r.back_link = some ["p", "posts", "A", "B.html"] :=
  (C6_breadcrumb_trails (exGen [] posts2) exRecs2
      [.create ["build", "render_cache.json"],
       .writeCacheJson ["build", "render_cache.json"] RenderCache.defaultCache]
      rfl).2
    "A" pa2 "B" pb2 ("Soup", exSoup)
    (List.mem_cons_self _ _) (List.mem_cons_self _ _) (List.mem_cons_self _ _)
